import Mathlib

/- Verification of the go-typed-errors library: a shallow embedding of the
   typed-error data model (package errors, errors.go), its constructors,
   the capability-check predicates, the HTTP transport rendering, and the
   retry driver (retry.go), together with theorems settling the spec's
   claims about them. -/

namespace Typederrs

/-- Go `interface\x7b\x7d` values as they occur in an Error's Data field:
the library stores either nothing (nil), a string, or (in tests) an int. -/
inductive GoData where
| nil
| str (s : String)
| int (n : Int)
deriving DecidableEq

/-- Rendering of a single operand by `fmt.Sprint`, as used by `Error.Error`:
a string prints as itself, an int in decimal, nil as `<nil>`. -/
def goSprint : GoData → String
| .nil => "<nil>"
| .str s => s
| .int n => toString n

/-- The `Error` struct of the library (src/unnamed/part_000 lines 72-84):
nine independent classification flags, an arbitrary Data payload and an
optional HTTP-specific message. Go zero values are the field defaults. -/
structure Error where
  IsAuthErr : Bool := false
  IsUnauthorizedErr : Bool := false
  IsForbiddenErr : Bool := false
  IsClErr : Bool := false
  IsNotFoundErr : Bool := false
  IsNotImplementedErr : Bool := false
  IsRetryableErr : Bool := false
  IsConflictErr : Bool := false
  IsPreconditionFailedErr : Bool := false
  Data : GoData := .nil
  HttpMsg : String := ""
deriving DecidableEq

/-- The `Error()` method: the message of the error, `fmt.Sprint(e.Data)`. -/
def Error.error (e : Error) : String :=
  goSprint e.Data

/-- Model of `Error.Client()`. -/
def Error.Client (e : Error) : Bool :=
  e.IsClErr

/-- Model of `Error.NotImplemented()`. -/
def Error.NotImplemented (e : Error) : Bool :=
  e.IsNotImplementedErr

/-- Model of `Error.Auth()`: true if any of the three auth-family flags is set. -/
def Error.Auth (e : Error) : Bool :=
  e.IsAuthErr || e.IsUnauthorizedErr || e.IsForbiddenErr

/-- Model of `Error.Unauthorized()`. -/
def Error.Unauthorized (e : Error) : Bool :=
  e.IsUnauthorizedErr

/-- Model of `Error.Forbidden()`. -/
def Error.Forbidden (e : Error) : Bool :=
  e.IsForbiddenErr

/-- Model of `Error.NotFound()`. -/
def Error.NotFound (e : Error) : Bool :=
  e.IsNotFoundErr

/-- Model of `Error.Retryable()`. -/
def Error.Retryable (e : Error) : Bool :=
  e.IsRetryableErr

/-- Model of `Error.Conflict()`. -/
def Error.Conflict (e : Error) : Bool :=
  e.IsConflictErr

/-- Model of `Error.PreconditionFailed()`. -/
def Error.PreconditionFailed (e : Error) : Bool :=
  e.IsPreconditionFailedErr

/-- One call of `http.Error(w, msg, code)` on the response writer: it writes
the status line for `status` and the body `body` once. -/
structure HTTPWrite where
  status : Int
  body : String
deriving DecidableEq

/-- Model of `Error.ToHTTPResponse(w)` (src/unnamed/part_000 lines 100-147).
The returned triple is (status code, written flag, list of writes performed
on `w` in order); each `http.Error` call contributes one `HTTPWrite`. -/
def Error.ToHTTPResponse (e : Error) : Int × Bool × List HTTPWrite :=
  let msg := e.HttpMsg
  let msg := if msg = "" then e.error else msg
  if e.IsAuthErr || e.IsForbiddenErr || e.IsUnauthorizedErr then
    if e.IsForbiddenErr then
      (403, true, [⟨403, msg⟩])
    else
      (401, true, [⟨401, msg⟩])
  else if e.IsClErr then
    (400, true, [⟨400, msg⟩])
  else if e.IsNotFoundErr then
    (404, true, [⟨404, msg⟩])
  else if e.IsNotImplementedErr then
    (501, true, [⟨501, msg⟩])
  else if e.IsRetryableErr then
    (503, true, [⟨503, msg⟩])
  else if e.IsConflictErr then
    (409, true, [⟨409, msg⟩])
  else if e.IsPreconditionFailedErr then
    (412, true, [⟨412, msg⟩])
  else
    (-1, false, [])

/-- A Go `error` interface value as the library's checkers see it: either a
value of the library's `Error` struct, or some other error whose `Error()`
method yields `msg`. -/
inductive ErrVal where
| typed (e : Error)
| untyped (msg : String)
deriving DecidableEq

/-- The type assertion `err.(Error)` on an error value. -/
def asTypedError : ErrVal → Option Error
| .typed e => some e
| .untyped _ => none

/-- Model of `Error()` of an arbitrary error value. -/
def errValMsg : ErrVal → String
| .typed e => e.error
| .untyped s => s

/-- An argument passed to `fmt.Sprintf`: either a plain data value or a Go
`error` interface value (possibly nil). -/
inductive FmtArg where
| val (d : GoData)
| errArg (e : Option ErrVal)
deriving DecidableEq

/-- The default (`%v`) rendering of a Sprintf argument: data renders as by
`fmt.Sprint`; a non-nil error value renders via its `Error()` method; a nil
error renders as `<nil>`. -/
def renderArg : FmtArg → String
| .val d => goSprint d
| .errArg none => "<nil>"
| .errArg (some v) => errValMsg v

/-- Decimal (`%d`) rendering of a Sprintf argument. -/
def renderArgDec : FmtArg → String
| .val (.int n) => toString n
| a => "%!d(BADVERB)" ++ renderArg a

/-- Core of the `fmt.Sprintf` model over the verbs the library and its tests
use (`%v`, `%s`, `%d`, `%%`); a verb with no remaining argument yields the
`(MISSING)` marker as in Go. -/
def sprintfAux : List Char → List FmtArg → List Char
| [], _ => []
| '%' :: '%' :: rest, args => '%' :: sprintfAux rest args
| '%' :: 'v' :: rest, a :: args => (renderArg a).data ++ sprintfAux rest args
| '%' :: 'v' :: rest, [] => "%!v(MISSING)".data ++ sprintfAux rest []
| '%' :: 's' :: rest, a :: args => (renderArg a).data ++ sprintfAux rest args
| '%' :: 's' :: rest, [] => "%!s(MISSING)".data ++ sprintfAux rest []
| '%' :: 'd' :: rest, a :: args => (renderArgDec a).data ++ sprintfAux rest args
| '%' :: 'd' :: rest, [] => "%!d(MISSING)".data ++ sprintfAux rest []
| c :: rest, args => c :: sprintfAux rest args

/-- Model of `fmt.Sprintf(format, a...)`. -/
def sprintf (format : String) (a : List FmtArg) : String :=
  String.mk (sprintfAux format.data a)

/-- Model of `New`: a new generic error, no flags set. -/
def New (data : GoData) : Error :=
  { Data := data }

/-- Model of `Newf`. -/
def Newf (format : String) (a : List FmtArg) : Error :=
  New (.str (sprintf format a))

/-- Model of `NewWithHttp`. -/
def NewWithHttp (httpMsg : String) (data : GoData) : Error :=
  { Data := data, HttpMsg := httpMsg }

/-- Model of `NewWithHttpf`. -/
def NewWithHttpf (httpMsg : String) (format : String) (a : List FmtArg) : Error :=
  NewWithHttp httpMsg (.str (sprintf format a))

/-- Model of `NewClient`. -/
def NewClient (data : GoData) : Error :=
  { Data := data, IsClErr := true }

/-- Model of `NewClientf`. -/
def NewClientf (format : String) (a : List FmtArg) : Error :=
  NewClient (.str (sprintf format a))

/-- Model of `NewClientWithHttp`. -/
def NewClientWithHttp (httpMsg : String) (data : GoData) : Error :=
  { Data := data, HttpMsg := httpMsg, IsClErr := true }

/-- Model of `NewClientWithHttpf`. -/
def NewClientWithHttpf (httpMsg : String) (format : String) (a : List FmtArg) : Error :=
  NewClientWithHttp httpMsg (.str (sprintf format a))

/-- Model of `NewNotImplemented`: takes no message, Data is fixed. -/
def NewNotImplemented : Error :=
  { IsNotImplementedErr := true, Data := .str ("not implemented") }

/-- Model of `NewNotImplementedf`. -/
def NewNotImplementedf (format : String) (a : List FmtArg) : Error :=
  { Data := .str (sprintf format a), IsNotImplementedErr := true }

/-- Model of `NewNotImplementedWithHttp`. -/
def NewNotImplementedWithHttp (httpMsg : String) (data : GoData) : Error :=
  { Data := data, HttpMsg := httpMsg, IsNotImplementedErr := true }

/-- Model of `NewNotImplementedWithHttpf`. -/
def NewNotImplementedWithHttpf (httpMsg : String) (format : String) (a : List FmtArg) : Error :=
  NewNotImplementedWithHttp httpMsg (.str (sprintf format a))

/-- Model of `NewAuth`. -/
def NewAuth (data : GoData) : Error :=
  { Data := data, IsAuthErr := true }

/-- Model of `NewAuthf`. -/
def NewAuthf (format : String) (a : List FmtArg) : Error :=
  NewAuth (.str (sprintf format a))

/-- Model of `NewAuthWithHttp`. -/
def NewAuthWithHttp (httpMsg : String) (data : GoData) : Error :=
  { Data := data, HttpMsg := httpMsg, IsAuthErr := true }

/-- Model of `NewAuthWithHttpf`. -/
def NewAuthWithHttpf (httpMsg : String) (format : String) (a : List FmtArg) : Error :=
  NewAuthWithHttp httpMsg (.str (sprintf format a))

/-- Model of `NewForbidden`: sets both the Auth and the Forbidden flag. -/
def NewForbidden (data : GoData) : Error :=
  { Data := data, IsAuthErr := true, IsForbiddenErr := true }

/-- Model of `NewForbiddenf`. -/
def NewForbiddenf (format : String) (a : List FmtArg) : Error :=
  NewForbidden (.str (sprintf format a))

/-- Model of `NewForbiddentWithHttp` (sic): sets only the Forbidden flag, not Auth. -/
def NewForbiddentWithHttp (httpMsg : String) (data : GoData) : Error :=
  { Data := data, HttpMsg := httpMsg, IsForbiddenErr := true }

/-- Model of `NewForbiddentWithHttpf`. -/
def NewForbiddentWithHttpf (httpMsg : String) (format : String) (a : List FmtArg) : Error :=
  NewForbiddentWithHttp httpMsg (.str (sprintf format a))

/-- Model of `NewUnauthorized`: sets both the Auth and the Unauthorized flag. -/
def NewUnauthorized (data : GoData) : Error :=
  { Data := data, IsAuthErr := true, IsUnauthorizedErr := true }

/-- Model of `NewUnauthorizedf`. -/
def NewUnauthorizedf (format : String) (a : List FmtArg) : Error :=
  NewUnauthorized (.str (sprintf format a))

/-- Model of `NewUnauthorizedWithHttp`: sets only the Unauthorized flag, not Auth. -/
def NewUnauthorizedWithHttp (httpMsg : String) (data : GoData) : Error :=
  { Data := data, HttpMsg := httpMsg, IsUnauthorizedErr := true }

/-- Model of `NewUnauthorizedWithHttpf`. -/
def NewUnauthorizedWithHttpf (httpMsg : String) (format : String) (a : List FmtArg) : Error :=
  NewUnauthorizedWithHttp httpMsg (.str (sprintf format a))

/-- Model of `NewNotFound`. -/
def NewNotFound (data : GoData) : Error :=
  { Data := data, IsNotFoundErr := true }

/-- Model of `NewNotFoundf`. -/
def NewNotFoundf (format : String) (a : List FmtArg) : Error :=
  NewNotFound (.str (sprintf format a))

/-- Model of `NewNotFoundWithHttp`. -/
def NewNotFoundWithHttp (httpMsg : String) (data : GoData) : Error :=
  { Data := data, HttpMsg := httpMsg, IsNotFoundErr := true }

/-- Model of `NewNotFoundWithHttpf`. -/
def NewNotFoundWithHttpf (httpMsg : String) (format : String) (a : List FmtArg) : Error :=
  NewNotFoundWithHttp httpMsg (.str (sprintf format a))

/-- Model of `NewRetryable`. -/
def NewRetryable (data : GoData) : Error :=
  { Data := data, IsRetryableErr := true }

/-- Model of `NewRetryablef`. -/
def NewRetryablef (format : String) (a : List FmtArg) : Error :=
  NewRetryable (.str (sprintf format a))

/-- Model of `NewRetryableWithHttp`. -/
def NewRetryableWithHttp (httpMsg : String) (data : GoData) : Error :=
  { Data := data, HttpMsg := httpMsg, IsRetryableErr := true }

/-- Model of `NewRetryableWithHttpf`. -/
def NewRetryableWithHttpf (httpMsg : String) (format : String) (a : List FmtArg) : Error :=
  NewRetryableWithHttp httpMsg (.str (sprintf format a))

/-- Model of `NewConflict`. -/
def NewConflict (data : GoData) : Error :=
  { Data := data, IsConflictErr := true }

/-- Model of `NewConflictf`. -/
def NewConflictf (format : String) (a : List FmtArg) : Error :=
  NewConflict (.str (sprintf format a))

/-- Model of `NewConflictWithHttp`. -/
def NewConflictWithHttp (httpMsg : String) (data : GoData) : Error :=
  { Data := data, HttpMsg := httpMsg, IsConflictErr := true }

/-- Model of `NewConflictWithHttpf`. -/
def NewConflictWithHttpf (httpMsg : String) (format : String) (a : List FmtArg) : Error :=
  NewConflictWithHttp httpMsg (.str (sprintf format a))

/-- Model of `NewPreconditionFailed`. -/
def NewPreconditionFailed (data : GoData) : Error :=
  { Data := data, IsPreconditionFailedErr := true }

/-- Model of `NewPreconditionFailedf`. -/
def NewPreconditionFailedf (format : String) (a : List FmtArg) : Error :=
  NewPreconditionFailed (.str (sprintf format a))

/-- Model of `NewPreconditionFailedWithHttp`. -/
def NewPreconditionFailedWithHttp (httpMsg : String) (data : GoData) : Error :=
  { Data := data, HttpMsg := httpMsg, IsPreconditionFailedErr := true }

/-- Model of `NewPreconditionFailedWithHttpf`. -/
def NewPreconditionFailedWithHttpf (httpMsg : String) (format : String) (a : List FmtArg) : Error :=
  NewPreconditionFailedWithHttp httpMsg (.str (sprintf format a))

/-- Model of `ClErrCheck.IsClientError`. -/
def ClErrCheck.IsClientError (err : ErrVal) : Bool :=
  match asTypedError err with
  | some errC => errC.Client
  | none => false

/-- Model of `NotImplErrCheck.IsNotImplementedError`. -/
def NotImplErrCheck.IsNotImplementedError (err : ErrVal) : Bool :=
  match asTypedError err with
  | some errC => errC.NotImplemented
  | none => false

/-- Model of `AuthErrCheck.IsAuthError`. -/
def AuthErrCheck.IsAuthError (err : ErrVal) : Bool :=
  match asTypedError err with
  | some errC => errC.Auth
  | none => false

/-- Model of `AuthErrCheck.IsForbiddenError`. -/
def AuthErrCheck.IsForbiddenError (err : ErrVal) : Bool :=
  match asTypedError err with
  | some errC => errC.Forbidden
  | none => false

/-- Model of `AuthErrCheck.IsUnauthorizedError`. -/
def AuthErrCheck.IsUnauthorizedError (err : ErrVal) : Bool :=
  match asTypedError err with
  | some errC => errC.Unauthorized
  | none => false

/-- Model of `NotFoundErrCheck.IsNotFoundError`. -/
def NotFoundErrCheck.IsNotFoundError (err : ErrVal) : Bool :=
  match asTypedError err with
  | some errC => errC.NotFound
  | none => false

/-- Model of `RetryableErrCheck.IsRetryableError`. -/
def RetryableErrCheck.IsRetryableError (err : ErrVal) : Bool :=
  match asTypedError err with
  | some errC => errC.Retryable
  | none => false

/-- Model of `ConflictErrCheck.IsConflictError`. -/
def ConflictErrCheck.IsConflictError (err : ErrVal) : Bool :=
  match asTypedError err with
  | some errC => errC.Conflict
  | none => false

/-- Model of `PreconditionFailedErrCheck.IsPreconditionFailedError`. -/
def PreconditionFailedErrCheck.IsPreconditionFailedError (err : ErrVal) : Bool :=
  match asTypedError err with
  | some errC => errC.PreconditionFailed
  | none => false

/-- Observable outcome of one run of `DoWithRetries` (src/retry.go): the
returned error (`none` models a nil return, i.e. success), how many times the
supplied operation was invoked, and how many `time.Sleep` calls occurred. -/
structure RetryRun where
  result : Option ErrVal
  invocations : Nat
  sleeps : Nat
deriving DecidableEq

/-- The loop body of `DoWithRetries` (src/retry.go lines 55-68). The doer is
modelled as the sequence of its successive return values: `doer i` is what
the `i`-th invocation (0-based) returns, `none` meaning nil. `idx` is the
index of the next invocation, `err` the Go `err` variable's current value,
and `remaining` the iterations of `numRetries < 5` still to run. Each
iteration invokes the doer; nil returns success; a non-retryable error (per
`checker`) is returned as is; a retryable error is followed by one
`time.Sleep(conf.backoff.Duration())` and the next iteration. When the loop
ends, `Newf("too many retries: %v", err)` is returned. -/
def doWithRetriesAux (checker : ErrVal → Bool) (doer : Nat → Option ErrVal)
    (idx : Nat) (err : Option ErrVal) : Nat → RetryRun
| 0 =>
    { result := some (.typed (Newf ("too many retries: %v") [.errArg err]))
      invocations := 0
      sleeps := 0 }
| remaining + 1 =>
    match doer idx with
    | none => { result := none, invocations := 1, sleeps := 0 }
    | some e =>
        if checker e then
          let rest := doWithRetriesAux checker doer (idx + 1) (some e) remaining
          { result := rest.result
            invocations := rest.invocations + 1
            sleeps := rest.sleeps + 1 }
        else
          { result := some e, invocations := 1, sleeps := 0 }

/-- Model of `DoWithRetries(doer, opts...)`: runs the loop for at most 5 attempts.
The backoff durations do not affect the observable outcome modelled here;
of the options only the retryable-error checker does, so it is the one
parameter kept, defaulting as in the source to `RetryableErrCheck`. -/
def DoWithRetries (doer : Nat → Option ErrVal)
    (checker : ErrVal → Bool := RetryableErrCheck.IsRetryableError) : RetryRun :=
  doWithRetriesAux checker doer 0 none 5

/-- Status selection as the spec's section 4.2 words it: the fixed priority
list, first match wins; Auth-family first, deciding 403 when Forbidden is
set and 401 otherwise; then ClientError 400, NotFound 404, NotImplemented
501, Retryable 503, Conflict 409, PreconditionFailed 412; `none` when no
flag matches. This definition follows the spec text, to be compared with
`Error.ToHTTPResponse`, which follows the source. -/
def httpStatusSpec (e : Error) : Option Int :=
  if e.IsAuthErr || e.IsForbiddenErr || e.IsUnauthorizedErr then
    some (if e.IsForbiddenErr then 403 else 401)
  else if e.IsClErr then some 400
  else if e.IsNotFoundErr then some 404
  else if e.IsNotImplementedErr then some 501
  else if e.IsRetryableErr then some 503
  else if e.IsConflictErr then some 409
  else if e.IsPreconditionFailedErr then some 412
  else none

/-- True when at least one of the nine classification flags is set. -/
def hasAnyFlag (e : Error) : Bool :=
  e.IsAuthErr || e.IsUnauthorizedErr || e.IsForbiddenErr || e.IsClErr || e.IsNotFoundErr ||
  e.IsNotImplementedErr || e.IsRetryableErr || e.IsConflictErr || e.IsPreconditionFailedErr

/-- The nine classification flags of an error, in declaration order:
Auth, Unauthorized, Forbidden, Client, NotFound, NotImplemented, Retryable,
Conflict, PreconditionFailed. -/
def flags (e : Error) : List Bool :=
  [e.IsAuthErr, e.IsUnauthorizedErr, e.IsForbiddenErr, e.IsClErr, e.IsNotFoundErr,
   e.IsNotImplementedErr, e.IsRetryableErr, e.IsConflictErr, e.IsPreconditionFailedErr]

/-- An operation that fails with the same retryable error on every call. -/
def alwaysRetryableDoer : Nat → Option ErrVal :=
  fun _ => some (.typed (NewRetryable (.str ("boom"))))

/-- An operation that fails retryably on its first four calls and succeeds
on the fifth. -/
def fail4ThenSucceedDoer : Nat → Option ErrVal :=
  fun i => if i < 4 then some (.typed (NewRetryable (.str ("boom")))) else none

/-- An operation that always fails with a non-retryable (generic) error. -/
def fatalDoer : Nat → Option ErrVal :=
  fun _ => some (.typed (New (.str ("fatal"))))

/-- Helper: `sprintf` on the retry driver's fixed format string prepends the
literal prefix to the rendering of the one argument. -/
lemma sprintf_tooManyRetries (a : FmtArg) :
    sprintf ("too many retries: %v") [a] = "too many retries: " ++ renderArg a := by
  cases hx : renderArg a with
  | mk l =>
    show String.mk _ = _
    simp [sprintf, sprintfAux, hx]
    rfl

/-- Helper: unfolding the whole retry loop when every attempt fails with an
error the checker classifies as retryable: five invocations, five sleeps,
and the composed "too many retries" error built from the last failure. -/
lemma doWithRetriesAux_exhaust (checker : ErrVal → Bool) (doer : Nat → Option ErrVal)
    (f0 f1 f2 f3 f4 : ErrVal)
    (hd0 : doer 0 = some f0) (hc0 : checker f0 = true)
    (hd1 : doer 1 = some f1) (hc1 : checker f1 = true)
    (hd2 : doer 2 = some f2) (hc2 : checker f2 = true)
    (hd3 : doer 3 = some f3) (hc3 : checker f3 = true)
    (hd4 : doer 4 = some f4) (hc4 : checker f4 = true) :
    DoWithRetries doer checker =
      ⟨some (.typed (Newf ("too many retries: %v") [.errArg (some f4)])), 5, 5⟩ := by
  simp [DoWithRetries, doWithRetriesAux, hd0, hc0, hd1, hc1, hd2, hc2, hd3, hc3, hd4, hc4]

/-- Helper: if the first `k` invocations fail retryably and invocation `k`
(0-based, still inside the attempt budget) fails with an error the checker
rejects, the loop returns that error unchanged after `k + 1` invocations
and `k` sleeps. -/
lemma doWithRetriesAux_nonretryable (checker : ErrVal → Bool) (doer : Nat → Option ErrVal) :
    ∀ (k remaining idx : Nat) (err0 : Option ErrVal) (e : ErrVal),
      k < remaining →
      (∀ i, i < k → ∃ ei, doer (idx + i) = some ei ∧ checker ei = true) →
      doer (idx + k) = some e → checker e = false →
      doWithRetriesAux checker doer idx err0 remaining = ⟨some e, k + 1, k⟩ := by
  intro k
  induction k with
  | zero =>
    intro remaining idx err0 e hk _ he hnr
    obtain ⟨rem, rfl⟩ : ∃ rem, remaining = rem + 1 := ⟨remaining - 1, by omega⟩
    rw [Nat.add_zero] at he
    simp [doWithRetriesAux, he, hnr]
  | succ k ih =>
    intro remaining idx err0 e hk hpre he hnr
    obtain ⟨rem, rfl⟩ : ∃ rem, remaining = rem + 1 := ⟨remaining - 1, by omega⟩
    obtain ⟨f0, hd0, hc0⟩ := hpre 0 (Nat.succ_pos k)
    rw [Nat.add_zero] at hd0
    have hrest := ih rem (idx + 1) (some f0) e (by omega)
      (fun i hi => by
        obtain ⟨ei, hdi, hci⟩ := hpre (i + 1) (by omega)
        exact ⟨ei, by rw [show idx + 1 + i = idx + (i + 1) by omega]; exact hdi, hci⟩)
      (by rw [show idx + 1 + k = idx + (k + 1) by omega]; exact he) hnr
    simp [doWithRetriesAux, hd0, hc0, hrest]

/-- C1: for every TypedError, `ToHTTPResponse` selects the HTTP status by the
fixed priority order — Auth family first (403 when the Forbidden flag is set,
else 401), then ClientError 400, NotFound 404, NotImplemented 501, Retryable
503, Conflict 409, PreconditionFailed 412 — with the first matching flag
winning (`httpStatusSpec` spells out that priority list, and -1 stands for no
match); in particular an error with both the Forbidden and NotFound flags set
maps to 403, not 404. -/
theorem toHTTPResponse_status_priority (e : Error) :
    (Error.ToHTTPResponse e).1 = (httpStatusSpec e).getD (-1) ∧
    (e.IsForbiddenErr = true → e.IsNotFoundErr = true → (Error.ToHTTPResponse e).1 = 403) := by
  rcases e with ⟨a, u, f, c, nf, ni, r, co, p, d, h⟩
  constructor
  · cases a <;> cases u <;> cases f <;> cases c <;> cases nf <;> cases ni <;> cases r <;>
      cases co <;> cases p <;> rfl
  · intro hf _
    subst hf
    simp [Error.ToHTTPResponse]

/-- Witness for C1 at a concrete error carrying both the Forbidden and the
NotFound flag: the response status is 403. -/
theorem toHTTPResponse_status_priority_witness :
    (Error.ToHTTPResponse
      { IsForbiddenErr := true, IsNotFoundErr := true, Data := .str ("x") }).1 = 403 :=
  (toHTTPResponse_status_priority _).2 rfl rfl

/-- C2: when the operation fails with a checker-retryable error on all 5
attempts, `DoWithRetries` returns a newly built generic error whose message
is "too many retries: " followed by the last underlying error's message, and
that error carries no classification flag, so every single-kind predicate
(including `IsRetryableError`) returns false on it. -/
theorem doWithRetries_exhaustion (checker : ErrVal → Bool) (doer : Nat → Option ErrVal)
    (h : ∀ i, i < 5 → ∃ e, doer i = some e ∧ checker e = true) :
    ∃ last e2, doer 4 = some last ∧
      (DoWithRetries doer checker).result = some (.typed e2) ∧
      e2.error = "too many retries: " ++ errValMsg last ∧
      flags e2 = [false, false, false, false, false, false, false, false, false] ∧
      ClErrCheck.IsClientError (.typed e2) = false ∧
      NotImplErrCheck.IsNotImplementedError (.typed e2) = false ∧
      AuthErrCheck.IsAuthError (.typed e2) = false ∧
      AuthErrCheck.IsForbiddenError (.typed e2) = false ∧
      AuthErrCheck.IsUnauthorizedError (.typed e2) = false ∧
      NotFoundErrCheck.IsNotFoundError (.typed e2) = false ∧
      RetryableErrCheck.IsRetryableError (.typed e2) = false ∧
      ConflictErrCheck.IsConflictError (.typed e2) = false ∧
      PreconditionFailedErrCheck.IsPreconditionFailedError (.typed e2) = false := by
  obtain ⟨f0, hd0, hc0⟩ := h 0 (by omega)
  obtain ⟨f1, hd1, hc1⟩ := h 1 (by omega)
  obtain ⟨f2, hd2, hc2⟩ := h 2 (by omega)
  obtain ⟨f3, hd3, hc3⟩ := h 3 (by omega)
  obtain ⟨f4, hd4, hc4⟩ := h 4 (by omega)
  refine ⟨f4, Newf ("too many retries: %v") [.errArg (some f4)], hd4, ?_, ?_,
    rfl, rfl, rfl, rfl, rfl, rfl, rfl, rfl, rfl, rfl⟩
  · rw [doWithRetriesAux_exhaust checker doer f0 f1 f2 f3 f4
      hd0 hc0 hd1 hc1 hd2 hc2 hd3 hc3 hd4 hc4]
  · calc (Newf ("too many retries: %v") [.errArg (some f4)]).error
        = sprintf ("too many retries: %v") [.errArg (some f4)] := rfl
      _ = "too many retries: " ++ renderArg (.errArg (some f4)) := sprintf_tooManyRetries _
      _ = "too many retries: " ++ errValMsg f4 := rfl

/-- Witness for C2: the always-retryably-failing operation under the default
checker exhausts all 5 attempts and yields the flagless wrapper error. -/
theorem doWithRetries_exhaustion_witness :
    ∃ last e2, alwaysRetryableDoer 4 = some last ∧
      (DoWithRetries alwaysRetryableDoer RetryableErrCheck.IsRetryableError).result =
        some (.typed e2) ∧
      e2.error = "too many retries: " ++ errValMsg last ∧
      flags e2 = [false, false, false, false, false, false, false, false, false] ∧
      ClErrCheck.IsClientError (.typed e2) = false ∧
      NotImplErrCheck.IsNotImplementedError (.typed e2) = false ∧
      AuthErrCheck.IsAuthError (.typed e2) = false ∧
      AuthErrCheck.IsForbiddenError (.typed e2) = false ∧
      AuthErrCheck.IsUnauthorizedError (.typed e2) = false ∧
      NotFoundErrCheck.IsNotFoundError (.typed e2) = false ∧
      RetryableErrCheck.IsRetryableError (.typed e2) = false ∧
      ConflictErrCheck.IsConflictError (.typed e2) = false ∧
      PreconditionFailedErrCheck.IsPreconditionFailedError (.typed e2) = false :=
  doWithRetries_exhaustion RetryableErrCheck.IsRetryableError alwaysRetryableDoer
    (fun _ _ => ⟨.typed (NewRetryable (.str ("boom"))), rfl, rfl⟩)

/-- C3, counterexample: the transport-message-bearing forbidden and
unauthorized constructors do not set the Auth flag, contradicting the claim
that every variant sets it. -/
theorem forbidden_withHttp_lacks_auth_flag :
    (NewForbiddentWithHttp ("m") (.str ("d"))).IsAuthErr = false ∧
    (NewUnauthorizedWithHttp ("m") (.str ("d"))).IsAuthErr = false :=
  ⟨rfl, rfl⟩

/-- C3, amended: the plain and formatted forbidden (resp. unauthorized)
constructors set both the Auth flag and the Forbidden (resp. Unauthorized)
flag and no other; the transport-message-bearing variants set only the
Forbidden (resp. Unauthorized) flag — not the Auth flag — and no other,
though they still satisfy the Auth predicate, which is the union of the
three auth-family flags. Flag order in `flags`: Auth, Unauthorized,
Forbidden, Client, NotFound, NotImplemented, Retryable, Conflict,
PreconditionFailed. -/
theorem forbidden_unauthorized_constructor_flags
    (d : GoData) (m fs : String) (args : List FmtArg) :
    flags (NewForbidden d) = [true, false, true, false, false, false, false, false, false] ∧
    flags (NewForbiddenf fs args) =
      [true, false, true, false, false, false, false, false, false] ∧
    flags (NewForbiddentWithHttp m d) =
      [false, false, true, false, false, false, false, false, false] ∧
    flags (NewForbiddentWithHttpf m fs args) =
      [false, false, true, false, false, false, false, false, false] ∧
    flags (NewUnauthorized d) = [true, true, false, false, false, false, false, false, false] ∧
    flags (NewUnauthorizedf fs args) =
      [true, true, false, false, false, false, false, false, false] ∧
    flags (NewUnauthorizedWithHttp m d) =
      [false, true, false, false, false, false, false, false, false] ∧
    flags (NewUnauthorizedWithHttpf m fs args) =
      [false, true, false, false, false, false, false, false, false] ∧
    (NewForbiddentWithHttp m d).Auth = true ∧
    (NewUnauthorizedWithHttp m d).Auth = true :=
  ⟨rfl, rfl, rfl, rfl, rfl, rfl, rfl, rfl, rfl, rfl⟩

/-- C4, counterexample: when the operation fails retryably on all 5 attempts,
the driver sleeps 5 times — once after every failure including the final
one — not 4 times as claimed. -/
theorem doWithRetries_all_retryable_five_sleeps :
    (DoWithRetries alwaysRetryableDoer).sleeps = 5 ∧
    (DoWithRetries alwaysRetryableDoer).sleeps ≠ 4 :=
  ⟨rfl, by decide⟩

/-- C4, amended: a backoff sleep occurs after every retryable failure,
including after the final attempt when it fails retryably: if the operation
fails retryably 4 times and succeeds on the 5th call there are exactly 5
invocations and 4 sleeps, and if all 5 attempts fail retryably there are
exactly 5 invocations and 5 sleeps. -/
theorem doWithRetries_sleep_counts (checker : ErrVal → Bool) (doer : Nat → Option ErrVal) :
    ((∀ i, i < 4 → ∃ e, doer i = some e ∧ checker e = true) → doer 4 = none →
        DoWithRetries doer checker = ⟨none, 5, 4⟩) ∧
    ((∀ i, i < 5 → ∃ e, doer i = some e ∧ checker e = true) →
        (DoWithRetries doer checker).invocations = 5 ∧
        (DoWithRetries doer checker).sleeps = 5) := by
  constructor
  · intro hpre hsucc
    obtain ⟨f0, hd0, hc0⟩ := hpre 0 (by omega)
    obtain ⟨f1, hd1, hc1⟩ := hpre 1 (by omega)
    obtain ⟨f2, hd2, hc2⟩ := hpre 2 (by omega)
    obtain ⟨f3, hd3, hc3⟩ := hpre 3 (by omega)
    simp [DoWithRetries, doWithRetriesAux, hd0, hc0, hd1, hc1, hd2, hc2, hd3, hc3, hsucc]
  · intro hpre
    obtain ⟨f0, hd0, hc0⟩ := hpre 0 (by omega)
    obtain ⟨f1, hd1, hc1⟩ := hpre 1 (by omega)
    obtain ⟨f2, hd2, hc2⟩ := hpre 2 (by omega)
    obtain ⟨f3, hd3, hc3⟩ := hpre 3 (by omega)
    obtain ⟨f4, hd4, hc4⟩ := hpre 4 (by omega)
    rw [doWithRetriesAux_exhaust checker doer f0 f1 f2 f3 f4
      hd0 hc0 hd1 hc1 hd2 hc2 hd3 hc3 hd4 hc4]
    exact ⟨rfl, rfl⟩

/-- Witness for C4 (amended): the fail-4-then-succeed operation runs 5
invocations with 4 sleeps, and the always-failing one runs 5 invocations
with 5 sleeps, both under the default checker. -/
theorem doWithRetries_sleep_counts_witness :
    DoWithRetries fail4ThenSucceedDoer = ⟨none, 5, 4⟩ ∧
    (DoWithRetries alwaysRetryableDoer).invocations = 5 ∧
    (DoWithRetries alwaysRetryableDoer).sleeps = 5 :=
  ⟨(doWithRetries_sleep_counts RetryableErrCheck.IsRetryableError fail4ThenSucceedDoer).1
      (fun i hi =>
        ⟨.typed (NewRetryable (.str ("boom"))),
         by simp [fail4ThenSucceedDoer, hi], rfl⟩)
      (by simp [fail4ThenSucceedDoer]),
   (doWithRetries_sleep_counts RetryableErrCheck.IsRetryableError alwaysRetryableDoer).2
      (fun _ _ => ⟨.typed (NewRetryable (.str ("boom"))), rfl, rfl⟩)⟩

/-- C5: if the first `k` invocations inside `DoWithRetries` fail retryably
and invocation `k` (within the 5-attempt budget) returns an error the
configured checker classifies as non-retryable, the driver stops at once and
returns that exact error value after `k + 1` invocations and `k` sleeps — so
no sleep follows the failure and no further attempt happens; with `k = 0`
this is exactly 1 invocation and 0 sleeps. -/
theorem doWithRetries_nonretryable_stops
    (checker : ErrVal → Bool) (doer : Nat → Option ErrVal) (k : Nat) (e : ErrVal)
    (hk : k < 5)
    (hpre : ∀ i, i < k → ∃ ei, doer i = some ei ∧ checker ei = true)
    (he : doer k = some e) (hnr : checker e = false) :
    DoWithRetries doer checker = ⟨some e, k + 1, k⟩ := by
  have hmain := doWithRetriesAux_nonretryable checker doer k 5 0 none e hk
    (by simpa using hpre) (by simpa using he) hnr
  simpa [DoWithRetries] using hmain

/-- Witness for C5: a first-call non-retryable failure under the default
checker returns that exact error after 1 invocation and 0 sleeps. -/
theorem doWithRetries_nonretryable_stops_witness :
    DoWithRetries fatalDoer = ⟨some (.typed (New (.str ("fatal")))), 1, 0⟩ :=
  doWithRetries_nonretryable_stops RetryableErrCheck.IsRetryableError fatalDoer 0
    (.typed (New (.str ("fatal")))) (by omega)
    (fun i hi => absurd hi (Nat.not_lt_zero i)) rfl rfl

/-- C6: every single-kind predicate returns false on a value that is not a
TypedError, and on a TypedError returns exactly the corresponding flag —
except `IsAuthError`, which returns the union of the Auth, Unauthorized and
Forbidden flags. -/
theorem checker_predicates_spec (e : Error) (s : String) :
    ClErrCheck.IsClientError (.untyped s) = false ∧
    NotImplErrCheck.IsNotImplementedError (.untyped s) = false ∧
    AuthErrCheck.IsAuthError (.untyped s) = false ∧
    AuthErrCheck.IsForbiddenError (.untyped s) = false ∧
    AuthErrCheck.IsUnauthorizedError (.untyped s) = false ∧
    NotFoundErrCheck.IsNotFoundError (.untyped s) = false ∧
    RetryableErrCheck.IsRetryableError (.untyped s) = false ∧
    ConflictErrCheck.IsConflictError (.untyped s) = false ∧
    PreconditionFailedErrCheck.IsPreconditionFailedError (.untyped s) = false ∧
    ClErrCheck.IsClientError (.typed e) = e.IsClErr ∧
    NotImplErrCheck.IsNotImplementedError (.typed e) = e.IsNotImplementedErr ∧
    AuthErrCheck.IsAuthError (.typed e) =
      (e.IsAuthErr || e.IsUnauthorizedErr || e.IsForbiddenErr) ∧
    AuthErrCheck.IsForbiddenError (.typed e) = e.IsForbiddenErr ∧
    AuthErrCheck.IsUnauthorizedError (.typed e) = e.IsUnauthorizedErr ∧
    NotFoundErrCheck.IsNotFoundError (.typed e) = e.IsNotFoundErr ∧
    RetryableErrCheck.IsRetryableError (.typed e) = e.IsRetryableErr ∧
    ConflictErrCheck.IsConflictError (.typed e) = e.IsConflictErr ∧
    PreconditionFailedErrCheck.IsPreconditionFailedError (.typed e) = e.IsPreconditionFailedErr :=
  ⟨rfl, rfl, rfl, rfl, rfl, rfl, rfl, rfl, rfl,
   rfl, rfl, rfl, rfl, rfl, rfl, rfl, rfl, rfl⟩

/-- C7: on a TypedError with no classification flag set, `ToHTTPResponse`
writes nothing and returns the sentinel status -1 with a false flag; when
some flag matches, exactly one write is performed, carrying the returned
status, and the flag returned is true. -/
theorem toHTTPResponse_write_discipline (e : Error) :
    if hasAnyFlag e then
      (Error.ToHTTPResponse e).2.1 = true ∧
      ∃ m, (Error.ToHTTPResponse e).2.2 = [⟨(Error.ToHTTPResponse e).1, m⟩]
    else Error.ToHTTPResponse e = (-1, false, []) := by
  rcases e with ⟨a, u, f, c, nf, ni, r, co, p, d, h⟩
  cases a <;> cases u <;> cases f <;> cases c <;> cases nf <;> cases ni <;> cases r <;>
    cases co <;> cases p <;> first
      | exact ⟨rfl, _, rfl⟩
      | rfl

/-- C8: whenever `ToHTTPResponse` writes a body, that body is the
transport-specific message `HttpMsg` when it is non-empty and otherwise the
stringified payload `Error()` — a choice depending only on `HttpMsg`, never
on which flag matched. -/
theorem toHTTPResponse_body_choice (e : Error) :
    (Error.ToHTTPResponse e).2.2.map HTTPWrite.body =
      (if (Error.ToHTTPResponse e).2.1 then
        [if e.HttpMsg = "" then e.error else e.HttpMsg] else []) := by
  rcases e with ⟨a, u, f, c, nf, ni, r, co, p, d, h⟩
  cases a <;> cases u <;> cases f <;> cases c <;> cases nf <;> cases ni <;> cases r <;>
    cases co <;> cases p <;> rfl

/-- C9: each message-taking constructor round-trips its message through
`Error()` exactly, and each formatted variant's `Error()` equals the
printf-expansion of the format with the arguments. -/
theorem constructor_message_roundtrip (msg fs : String) (args : List FmtArg) :
    (New (.str msg)).error = msg ∧
    (NewClient (.str msg)).error = msg ∧
    (NewAuth (.str msg)).error = msg ∧
    (NewForbidden (.str msg)).error = msg ∧
    (NewUnauthorized (.str msg)).error = msg ∧
    (NewNotFound (.str msg)).error = msg ∧
    (NewRetryable (.str msg)).error = msg ∧
    (NewConflict (.str msg)).error = msg ∧
    (NewPreconditionFailed (.str msg)).error = msg ∧
    (Newf fs args).error = sprintf fs args ∧
    (NewClientf fs args).error = sprintf fs args ∧
    (NewNotImplementedf fs args).error = sprintf fs args ∧
    (NewAuthf fs args).error = sprintf fs args ∧
    (NewForbiddenf fs args).error = sprintf fs args ∧
    (NewUnauthorizedf fs args).error = sprintf fs args ∧
    (NewNotFoundf fs args).error = sprintf fs args ∧
    (NewRetryablef fs args).error = sprintf fs args ∧
    (NewConflictf fs args).error = sprintf fs args ∧
    (NewPreconditionFailedf fs args).error = sprintf fs args :=
  ⟨rfl, rfl, rfl, rfl, rfl, rfl, rfl, rfl, rfl, rfl,
   rfl, rfl, rfl, rfl, rfl, rfl, rfl, rfl, rfl⟩

/-- C10: an empty transport message is treated as absent — any TypedError
with empty `HttpMsg` gets the stringified payload as body, and each
transport-message-bearing constructor called with an empty message is
observationally identical at the transport boundary to the corresponding
plain constructor. -/
theorem emptyHttpMsg_treated_absent (e : Error) (d : GoData) :
    (e.HttpMsg = "" →
      (Error.ToHTTPResponse e).2.2.map HTTPWrite.body =
        (if (Error.ToHTTPResponse e).2.1 then [e.error] else [])) ∧
    Error.ToHTTPResponse (NewWithHttp "" d) = Error.ToHTTPResponse (New d) ∧
    Error.ToHTTPResponse (NewClientWithHttp "" d) = Error.ToHTTPResponse (NewClient d) ∧
    Error.ToHTTPResponse (NewAuthWithHttp "" d) = Error.ToHTTPResponse (NewAuth d) ∧
    Error.ToHTTPResponse (NewForbiddentWithHttp "" d) =
      Error.ToHTTPResponse (NewForbidden d) ∧
    Error.ToHTTPResponse (NewUnauthorizedWithHttp "" d) =
      Error.ToHTTPResponse (NewUnauthorized d) ∧
    Error.ToHTTPResponse (NewNotFoundWithHttp "" d) = Error.ToHTTPResponse (NewNotFound d) ∧
    Error.ToHTTPResponse (NewRetryableWithHttp "" d) =
      Error.ToHTTPResponse (NewRetryable d) ∧
    Error.ToHTTPResponse (NewConflictWithHttp "" d) = Error.ToHTTPResponse (NewConflict d) ∧
    Error.ToHTTPResponse (NewPreconditionFailedWithHttp "" d) =
      Error.ToHTTPResponse (NewPreconditionFailed d) := by
  refine ⟨?_, rfl, rfl, rfl, rfl, rfl, rfl, rfl, rfl, rfl⟩
  rcases e with ⟨a, u, f, c, nf, ni, r, co, p, dd, hh⟩
  intro hmsg
  dsimp only at hmsg
  subst hmsg
  cases a <;> cases u <;> cases f <;> cases c <;> cases nf <;> cases ni <;> cases r <;>
    cases co <;> cases p <;> rfl

/-- Witness for C10 at a concrete client error with empty transport message:
the body written is the stringified payload, and the generic WithHttp
constructor with empty message matches the generic constructor. -/
theorem emptyHttpMsg_treated_absent_witness :
    (Error.ToHTTPResponse (NewClient (.str ("x")))).2.2.map HTTPWrite.body =
      (if (Error.ToHTTPResponse (NewClient (.str ("x")))).2.1
        then [(NewClient (.str ("x"))).error] else []) ∧
    Error.ToHTTPResponse (NewWithHttp "" (.str ("y"))) =
      Error.ToHTTPResponse (New (.str ("y"))) :=
  ⟨(emptyHttpMsg_treated_absent (NewClient (.str ("x"))) (.str ("y"))).1 rfl,
   (emptyHttpMsg_treated_absent (NewClient (.str ("x"))) (.str ("y"))).2.1⟩

end Typederrs
